import Mathlib

/-!
Verification development for the hurricane feature-derivation and
multi-horizon inference pipeline.

The definitions below are a shallow embedding of the repository's Python
sources:

* `ingest.prep_hurricane_data`  — feature derivation over raw observations
  (pandas data-frame pipeline; its float semantics — NaN propagation from
  `shift`, signed infinities and NaN from division by zero, `dropna` — are
  modelled explicitly with the `PVal` type, and the pandas
  `Timedelta.dt.seconds` accessor is modelled as the mathematically exact
  seconds component, i.e. the elapsed time modulo 86400).
* `hurricane_ai/plotting_utils._generate_sparse_feature_vector` — sparse
  vector construction for inverse scaling (Python list indexing semantics,
  including negative-index wrap-around and IndexError, are modelled with an
  `Option` result and an integer index).
* `deploy.run_live_inference` — the per-storm inference loop, the universal
  descaling branch and the singular descaling branch (Python's unbound
  local variable error in the "lat" branch is modelled with `Except`).
* `test.py` — the batch ("all timesteps") orchestration: anchor-timestamp
  selection and `create_table`.

Numbers are embedded as rationals (the concrete float computations of the
claims are exact in ℚ), timestamps as integers (POSIX seconds, UTC).
-/

/-! ## A model of the pandas/NumPy float values arising in the pipeline

The feature pipeline only produces non-finite values through
division-by-zero (`x / 0`) and through `shift`-introduced missing values
(NaN / NaT).  `PVal` distinguishes finite rationals, signed infinities and
NaN; `pdiv` is NumPy's division of a finite float by a finite float. -/

inductive PVal where
  | nan : PVal
  | inf : Bool → PVal
  | num : ℚ → PVal
deriving DecidableEq, Repr, Inhabited

/-- NumPy float division of finite values: `0/0 = nan`, `x/0 = ±inf`. -/
def pdiv (x y : ℚ) : PVal :=
  if y = 0 then (if x = 0 then PVal.nan else PVal.inf (decide (0 < x)))
  else PVal.num (x / y)

def PVal.isNan : PVal → Bool
  | PVal.nan => true
  | _ => false

/-! ## Data model (`ingest.py`)

An observation record as produced by the ingestion collaborator:
`{'time', 'wind', 'lat', 'lon', 'pressure'}`. -/

structure Obs where
  time : ℤ
  wind : ℚ
  lat : ℚ
  lon : ℚ
  pressure : ℚ
deriving DecidableEq, Repr, Inhabited

/-- One row of the derived feature table (`prep_hurricane_data`'s output):
raw fields plus the derived columns assigned by `df.assign(...)`. -/
structure FeatureRow where
  time : ℤ
  wind : ℚ
  lat : ℚ
  lon : ℚ
  pressure : ℚ
  max_wind : ℚ
  delta_wind : PVal
  min_pressure : ℚ
  zonal_speed : PVal
  meridonal_speed : PVal
  year : ℤ
  month : ℤ
  day : ℤ
  hour : ℤ
deriving DecidableEq, Repr, Inhabited

/-! ## Calendar components (`df["time"].dt.year/month/day/hour`)

Civil-calendar extraction from POSIX seconds, using the standard
days-to-civil algorithm.  Lean's `ℤ` division/modulo are Euclidean, which
for the positive divisors used here coincides with Python's floor
division. -/

def civilFromDays (z0 : ℤ) : ℤ × ℤ × ℤ :=
  let z := z0 + 719468
  let era := z / 146097
  let doe := z - era * 146097
  let yoe := (doe - doe / 1460 + doe / 36524 - doe / 146096) / 365
  let y := yoe + era * 400
  let doy := doe - (365 * yoe + yoe / 4 - yoe / 100)
  let mp := (5 * doy + 2) / 153
  let d := doy - (153 * mp + 2) / 5 + 1
  let m := mp + (if mp < 10 then 3 else -9)
  (y + (if m ≤ 2 then 1 else 0), m, d)

def yearOf (t : ℤ) : ℤ := (civilFromDays (t / 86400)).1
def monthOf (t : ℤ) : ℤ := (civilFromDays (t / 86400)).2.1
def dayOf (t : ℤ) : ℤ := (civilFromDays (t / 86400)).2.2
def hourOf (t : ℤ) : ℤ := (t % 86400) / 3600

/-! ## Feature derivation (`ingest.prep_hurricane_data`) -/

/-- Maximum of a list of rationals (`pandas.Series.cummax` evaluated at the
last position of a non-empty prefix); `0` for the empty list, which is
never reached at the call sites. -/
def listMaxD (l : List ℚ) : ℚ :=
  match l with
  | [] => 0
  | x :: xs => xs.foldl max x

def listMinD (l : List ℚ) : ℚ :=
  match l with
  | [] => 0
  | x :: xs => xs.foldl min x

/-- `series.cummax()` evaluated at index `i`: maximum over positions
`0..i`. -/
def prefixMax (l : List ℚ) (i : ℕ) : ℚ := listMaxD (l.take (i + 1))

/-- `series.cummin()` evaluated at index `i`. -/
def prefixMin (l : List ℚ) (i : ℕ) : ℚ := listMinD (l.take (i + 1))

/-- `df.sort_values(by="time")`: a stable sort of the observations by
timestamp. -/
def sortObs (observations : List Obs) : List Obs :=
  List.insertionSort (fun a b => a.time ≤ b.time) observations

/-- The pandas accessor `(df["time"] - df["time"].shift(lag)).dt.seconds`
at row `i` of the time-sorted frame `s`: the seconds *component* of the
timedelta, i.e. the elapsed seconds modulo 86400 (whole days are
discarded).  Only meaningful for `lag ≤ i`; rows `i < lag` are NaT and are
guarded at the call site. -/
def lagSecs (s : List Obs) (lag i : ℕ) : ℤ :=
  ((s.getD i default).time - (s.getD (i - lag) default).time) % 86400

/-- Row `i` of the `df.assign(...)` result over the time-sorted frame `s`.

* `max_wind` is `df["wind"].cummax()` at `i`.
* `delta_wind` is
  `(df["wind"].cummax() - df["wind"].shift(lag).cummax()) /
   ((df["time"] - df["time"].shift(lag)).dt.seconds / 21600)`;
  `df["wind"].shift(lag).cummax()` at `i ≥ lag` is the running maximum of
  `wind[0..i-lag]` (pandas `cummax` skips the NaN head introduced by
  `shift`), and rows `i < lag` are NaN.
* `min_pressure` is `df["pressure"].cummin()` at `i`.
* `zonal_speed` / `meridonal_speed` divide the `lag`-step difference of
  `lat` / `lon` by `.dt.seconds / 3600`.
* `year`/`month`/`day`/`hour` come from `df["time"].dt`. -/
def mkRow (s : List Obs) (lag i : ℕ) : FeatureRow :=
  let o := s.getD i default
  let po := s.getD (i - lag) default
  let winds := s.map Obs.wind
  let pressures := s.map Obs.pressure
  let secs : ℤ := lagSecs s lag i
  { time := o.time
    wind := o.wind
    lat := o.lat
    lon := o.lon
    pressure := o.pressure
    max_wind := prefixMax winds i
    delta_wind :=
      if i < lag then PVal.nan
      else pdiv (prefixMax winds i - prefixMax winds (i - lag)) ((secs : ℚ) / 21600)
    min_pressure := prefixMin pressures i
    zonal_speed :=
      if i < lag then PVal.nan
      else pdiv (o.lat - po.lat) ((secs : ℚ) / 3600)
    meridonal_speed :=
      if i < lag then PVal.nan
      else pdiv (o.lon - po.lon) ((secs : ℚ) / 3600)
    year := yearOf o.time
    month := monthOf o.time
    day := dayOf o.time
    hour := hourOf o.time }

/-- `df.dropna()` drops a row iff one of its values is NaN.  The only
columns that can be NaN are the three `shift(lag)`-derived quotients
(raw fields are finite, running max/min of finite values are finite, and
calendar fields are total). -/
def hasNan (r : FeatureRow) : Bool :=
  r.delta_wind.isNan || r.zonal_speed.isNan || r.meridonal_speed.isNan

/-- `ingest.prep_hurricane_data(observations, lag)`: sort by time, assign
the derived columns, then `dropna()`. -/
def prep_hurricane_data (observations : List Obs) (lag : ℕ) : List FeatureRow :=
  let df := sortObs observations
  ((List.range df.length).map (mkRow df lag)).filter (fun r => !hasNan r)

/-! ## Sparse feature vectors (`hurricane_ai/plotting_utils.py`)

`_generate_sparse_feature_vector(vector_length, feature_index, feature_value)`
executes `features = [0] * vector_length; features[feature_index] = feature_value`.
Python list item assignment accepts negative indices (counting from the end)
and raises `IndexError` for indices outside `[-len, len)`; the embedding
returns `none` exactly when Python raises. -/

def _generate_sparse_feature_vector (vector_length : ℕ) (feature_index : ℤ)
    (feature_value : ℚ) : Option (List ℚ) :=
  let features := List.replicate vector_length (0 : ℚ)
  let j : ℤ := if feature_index < 0 then feature_index + vector_length else feature_index
  if 0 ≤ j ∧ j < (vector_length : ℤ) then some (features.set j.toNat feature_value)
  else none

/-- The descaling step of `deploy.run_live_inference`:
`scaler.inverse_transform([sparse_vector])[0][feature_index]`, with the
fitted scaler's batched `inverse_transform` kept abstract.  `none` models a
raised `IndexError`. -/
def descale (inverse_transform : List (List ℚ) → List (List ℚ))
    (vector_length : ℕ) (feature_index : ℤ) (feature_value : ℚ) : Option ℚ :=
  (_generate_sparse_feature_vector vector_length feature_index feature_value).bind
    fun vec => ((inverse_transform [vec]).get? 0).bind fun row => row.get? feature_index.toNat

/-! ## Universal descaling branch (`deploy.run_live_inference`, lines 73–92)

For each `day in range(4)` the universal branch reads the three components
of `result[day]` at `wind_index = 0`, `lat_index = 1`, `long_index = 2`,
builds an 11-dimensional sparse vector for each (wind at scaler index 2,
lat at scaler index 0, long at scaler index 1), inverse-transforms it, and
reads back `[0][2]`, `[0][0]`, `[0][1]` respectively. -/

def universal_descale_day (inverse_transform : List (List ℚ) → List (List ℚ))
    (result_day : List ℚ) : Option ℚ × Option ℚ × Option ℚ :=
  let wind_index := 0
  let lat_index := 1
  let long_index := 2
  let wind := (result_day.get? wind_index).bind fun w =>
    (_generate_sparse_feature_vector 11 2 w).bind fun vec =>
      ((inverse_transform [vec]).get? 0).bind fun row => row.get? 2
  let lat := (result_day.get? lat_index).bind fun w =>
    (_generate_sparse_feature_vector 11 0 w).bind fun vec =>
      ((inverse_transform [vec]).get? 0).bind fun row => row.get? 0
  let long := (result_day.get? long_index).bind fun w =>
    (_generate_sparse_feature_vector 11 1 w).bind fun vec =>
      ((inverse_transform [vec]).get? 0).bind fun row => row.get? 1
  (wind, lat, long)

/-- The `for day in range(4)` loop of the universal branch. -/
def universal_descale (inverse_transform : List (List ℚ) → List (List ℚ))
    (result : List (List ℚ)) : List (Option ℚ × Option ℚ × Option ℚ) :=
  (List.range 4).map fun day => universal_descale_day inverse_transform (result.getD day [])

/-! ## Singular descaling branch (`deploy.run_live_inference`, lines 94–109)

The `for day in range(3)` loop branches on the model type.  The `"wind"`
and `else` (longitude) branches initialize their result list (`wind_result
= []` / `long_result = []`) before appending; the `"lat"` branch appends
to `lat_result`, a local variable that has no prior assignment on this
path, so Python raises an unbound-variable `NameError` before evaluating
the arguments.  Failed list reads model Python's `IndexError`. -/

def nameErrorMsg : String :=
  "NameError: local variable lat_result referenced before assignment"

/-- One iteration of the singular loop.  The state is the binding of the
`lat_result` variable (`none` while unassigned).  Returns the printed
descaled value together with the updated state. -/
def singular_day (model_type : String)
    (inverse_transform : List (List ℚ) → List (List ℚ)) (result : List ℚ)
    (day : ℕ) (lat_result : Option (List (List ℚ))) :
    Except String (ℚ × Option (List (List ℚ))) :=
  if model_type = "wind" then
    let wind_result : List (List ℚ) := []
    match result.get? day with
    | none => Except.error "IndexError"
    | some v =>
      match _generate_sparse_feature_vector 11 2 v with
      | none => Except.error "IndexError"
      | some vec =>
        let wind_result := wind_result ++ [vec]
        match (inverse_transform wind_result).get? 0 |>.bind (fun row => row.get? 2) with
        | none => Except.error "IndexError"
        | some x => Except.ok (x, lat_result)
  else if model_type = "lat" then
    -- `lat_result.append` loads the name `lat_result` before the
    -- arguments are evaluated
    match lat_result with
    | none => Except.error nameErrorMsg
    | some lr =>
      match result.get? day with
      | none => Except.error "IndexError"
      | some v =>
        match _generate_sparse_feature_vector 11 0 v with
        | none => Except.error "IndexError"
        | some vec =>
          let lr := lr ++ [vec]
          match (inverse_transform lr).get? 0 |>.bind (fun row => row.get? 0) with
          | none => Except.error "IndexError"
          | some x => Except.ok (x, some lr)
  else
    -- the source also rebinds `model = "long"` here; the binding is unused
    let long_result : List (List ℚ) := []
    match result.get? day with
    | none => Except.error "IndexError"
    | some v =>
      match _generate_sparse_feature_vector 11 1 v with
      | none => Except.error "IndexError"
      | some vec =>
        let long_result := long_result ++ [vec]
        match (inverse_transform long_result).get? 0 |>.bind (fun row => row.get? 1) with
        | none => Except.error "IndexError"
        | some x => Except.ok (x, lat_result)

/-- The `for day in range(3)` singular loop, unrolled as in the source. -/
def run_singular_descale (model_type : String)
    (inverse_transform : List (List ℚ) → List (List ℚ)) (result : List ℚ) :
    Except String (List ℚ) :=
  match singular_day model_type inverse_transform result 0 none with
  | Except.error e => Except.error e
  | Except.ok (x0, st0) =>
    match singular_day model_type inverse_transform result 1 st0 with
    | Except.error e => Except.error e
    | Except.ok (x1, st1) =>
      match singular_day model_type inverse_transform result 2 st1 with
      | Except.error e => Except.error e
      | Except.ok (x2, _) => Except.ok [x0, x1, x2]

/-! ## Per-storm loop (`deploy.run_live_inference`, lines 54–65)

For each live storm the loop derives the feature frame, then skips the
storm (`continue`) when `len(storm["entries"]) <= 5`, and otherwise calls
`model.predict(df, lag)` with `lag = 5`.  The model's `predict` is kept
abstract; a `none` entry records a skipped storm (for which `predict` is
never invoked, since its value is only demanded in the `else` branch). -/

structure Storm where
  entries : List Obs
deriving DecidableEq, Repr, Inhabited

def run_live_inference_storms {α : Type}
    (predict : List FeatureRow → ℕ → α) (storms : List Storm) : List (Option α) :=
  let lag := 5
  storms.map fun storm =>
    let df := prep_hurricane_data storm.entries lag
    if storm.entries.length ≤ 5 then none
    else some (predict df lag)

/-! ## Batch ("all timesteps") orchestration (`test.py`, lines 126–178)

`output_times = [6, 12, 24, 36, 48]`.  The batch loop builds
`tables = {timestamp : create_table(...) for timestamp in
[*hurricane.entries][len(output_times):]}` — one table per anchor
timestamp, where the anchors are all entry timestamps except the first
`len(output_times)`.  The per-anchor prediction passed to `create_table`
carries `times = [timestamp + timedelta(hours=h) for h in output_times]`.
-/

def output_times : List ℕ := [6, 12, 24, 36, 48]

def input_length : ℕ := 6

/-- The ground-truth entry for a timestamp (`storm.entries[time]`), HURDAT
fields as used by `create_table`. -/
structure TruthEntry where
  max_wind : ℚ
  lat : ℚ
  long : ℚ
deriving DecidableEq, Repr, Inhabited

/-- A prediction record (`prediction[variant][storm.id]`): parallel lists
indexed by horizon. -/
structure Prediction where
  times : List ℤ
  wind : List ℚ
  lat : List ℚ
  lon : List ℚ
deriving DecidableEq, Repr, Inhabited

/-- One row of the table built by `test.create_table`.  Prediction reads
are `Option`-valued (`none` would be a Python `IndexError`); the
`*Truth`/`*diff` columns are `none` for the `'N/A'` case where the anchor
has no matching truth entry.  The great-circle `Dist` columns are computed
by the external `great_circle_calculator` collaborator and are out of
scope. -/
structure TableRow where
  time : ℤ
  delta : Option ℕ
  mpredict_wind : Option ℚ
  mpredict_lat : Option ℚ
  mpredict_lon : Option ℚ
  upredict_wind : Option ℚ
  upredict_lat : Option ℚ
  upredict_lon : Option ℚ
  wind_truth : Option ℚ
  lat_truth : Option ℚ
  lon_truth : Option ℚ
  mdiff_wind : Option ℚ
  mdiff_lat : Option ℚ
  mdiff_lon : Option ℚ
  udiff_wind : Option ℚ
  udiff_lat : Option ℚ
  udiff_lon : Option ℚ
deriving DecidableEq, Repr, Inhabited

/-- `test.create_table(prediction, storm, deltas)`: one row per index of
`prediction['universal'][storm.id]['times']`, with truth columns filled
when the row's time is among the storm's entry times. -/
def create_table (universal singular : Prediction)
    (truth : ℤ → Option TruthEntry) (deltas : List ℕ) : List TableRow :=
  universal.times.enum.map fun p =>
    let index := p.1
    let time := p.2
    let base : TableRow :=
      { time := time
        delta := deltas.get? index
        mpredict_wind := singular.wind.get? index
        mpredict_lat := singular.lat.get? index
        mpredict_lon := singular.lon.get? index
        upredict_wind := universal.wind.get? index
        upredict_lat := universal.lat.get? index
        upredict_lon := universal.lon.get? index
        wind_truth := none, lat_truth := none, lon_truth := none
        mdiff_wind := none, mdiff_lat := none, mdiff_lon := none
        udiff_wind := none, udiff_lat := none, udiff_lon := none }
    match truth time with
    | some te =>
      { base with
        wind_truth := some te.max_wind
        lat_truth := some te.lat
        lon_truth := some (te.long * (-1))
        mdiff_wind := (singular.wind.get? index).map (te.max_wind - ·)
        mdiff_lat := (singular.lat.get? index).map (te.lat - ·)
        mdiff_lon := (singular.lon.get? index).map (te.long * (-1) - ·)
        udiff_wind := (universal.wind.get? index).map (te.max_wind - ·)
        udiff_lat := (universal.lat.get? index).map (te.lat - ·)
        udiff_lon := (universal.lon.get? index).map (te.long * (-1) - ·) }
    | none => base

/-- The per-anchor prediction record assembled inline in the `tables`
dict comprehension: forecast times are the anchor plus each horizon (in
hours), and the per-variable lists come from the batch-inference results
for that anchor. -/
def anchor_prediction (predictions : ℤ → List ℚ × List ℚ × List ℚ)
    (timestamp : ℤ) : Prediction :=
  { times := output_times.map fun hour : ℕ => timestamp + 3600 * (hour : ℤ)
    wind := (predictions timestamp).1
    lat := (predictions timestamp).2.1
    lon := (predictions timestamp).2.2 }

/-- The batch-mode `tables` comprehension: one `create_table` result per
anchor timestamp, anchors being `[*hurricane.entries][len(output_times):]`
(all entry timestamps except the first `len(output_times)`). -/
def batch_tables (storm_entry_times : List ℤ)
    (predictions_universal predictions_singular : ℤ → List ℚ × List ℚ × List ℚ)
    (truth : ℤ → Option TruthEntry) : List (ℤ × List TableRow) :=
  (storm_entry_times.drop output_times.length).map fun timestamp =>
    (timestamp,
      create_table (anchor_prediction predictions_universal timestamp)
        (anchor_prediction predictions_singular timestamp) truth output_times)

/-! ## Forecast model adapter (`hurricane_ai/ml/bd_lstm_td.py`) -/

/-- Modelled from the spec: the body of
`BidrectionalLstmHurricaneModel.predict` is not present under `src/`
(`bd_lstm_td.py` there defines only `__init__`, `_build_model` and
`train`; `deploy.py` is its caller).  Per the spec, `predict` is a
"strictly read-only forward pass": the per-horizon outputs are a function
of the loaded weights and the input feature window only, and no weight or
other inference state is mutated.  The forward pass itself (the trained
network) is kept abstract as a parameter. -/
structure ModelHandle where
  weights : List ℚ
  scaler_state : List ℚ
deriving DecidableEq, Repr, Inhabited

/-- Modelled from the spec: `predict(feature_window)` returns the
per-horizon scaled outputs and leaves the model handle untouched
(state-passing form: the returned handle is the post-call state). -/
def ModelHandle.predict (forward : List ℚ → List FeatureRow → List (List ℚ))
    (m : ModelHandle) (feature_window : List FeatureRow) :
    List (List ℚ) × ModelHandle :=
  (forward m.weights feature_window, m)

/-! ## General lemmas about the feature deriver -/

theorem hasNan_mkRow_of_lt (s : List Obs) (lag i : ℕ) (h : i < lag) :
    hasNan (mkRow s lag i) = true := by
  simp [mkRow, hasNan, PVal.isNan, if_pos h]

theorem hasNan_mkRow_of_ge (s : List Obs) (lag i : ℕ) (h : lag ≤ i)
    (hsec : lagSecs s lag i ≠ 0) : hasNan (mkRow s lag i) = false := by
  have hq : ((lagSecs s lag i : ℤ) : ℚ) ≠ 0 := Int.cast_ne_zero.mpr hsec
  have h21 : ((lagSecs s lag i : ℤ) : ℚ) / 21600 ≠ 0 := div_ne_zero hq (by norm_num)
  have h36 : ((lagSecs s lag i : ℤ) : ℚ) / 3600 ≠ 0 := div_ne_zero hq (by norm_num)
  simp [mkRow, hasNan, PVal.isNan, pdiv, if_neg (Nat.not_lt.mpr h), h21, h36]

theorem prep_eq_nil_of_le (obs : List Obs) (lag : ℕ) (h : obs.length ≤ lag) :
    prep_hurricane_data obs lag = [] := by
  unfold prep_hurricane_data
  apply List.filter_eq_nil_iff.mpr
  intro r hr
  rcases List.mem_map.mp hr with ⟨i, hi, rfl⟩
  have hlen : (sortObs obs).length = obs.length := List.length_insertionSort _ _
  have hilag : i < lag := by
    have := List.mem_range.mp hi
    omega
  simp [hasNan_mkRow_of_lt _ _ _ hilag]

theorem prep_mem_not_nan (obs : List Obs) (lag : ℕ) :
    ∀ r ∈ prep_hurricane_data obs lag, hasNan r = false := by
  intro r hr
  unfold prep_hurricane_data at hr
  have := List.of_mem_filter hr
  simpa using this

theorem prep_split (obs : List Obs) (lag : ℕ) (h : lag < obs.length) :
    prep_hurricane_data obs lag =
      ((List.range (obs.length - lag)).map
        (fun j => mkRow (sortObs obs) lag (lag + j))).filter (fun r => !hasNan r) := by
  show ((List.range (sortObs obs).length).map
      (mkRow (sortObs obs) lag)).filter (fun r => !hasNan r) = _
  have hlen : (sortObs obs).length = obs.length := List.length_insertionSort _ _
  have hsplit : obs.length = lag + (obs.length - lag) := by omega
  rw [hlen, hsplit, List.range_add, List.map_append, List.filter_append, List.map_map]
  have hfirst :
      ((List.range lag).map (mkRow (sortObs obs) lag)).filter (fun r => !hasNan r) = [] := by
    apply List.filter_eq_nil_iff.mpr
    intro r hr
    rcases List.mem_map.mp hr with ⟨i, hi, rfl⟩
    simp [hasNan_mkRow_of_lt _ _ _ (List.mem_range.mp hi)]
  rw [hfirst, List.nil_append]
  simp only [Nat.add_sub_cancel_left]
  rfl

theorem prep_length_le (obs : List Obs) (lag : ℕ) :
    (prep_hurricane_data obs lag).length ≤ obs.length - lag := by
  by_cases h : obs.length ≤ lag
  · rw [prep_eq_nil_of_le obs lag h]
    simp
  · rw [prep_split obs lag (by omega)]
    calc (((List.range (obs.length - lag)).map
            (fun j => mkRow (sortObs obs) lag (lag + j))).filter (fun r => !hasNan r)).length
        ≤ ((List.range (obs.length - lag)).map
            (fun j => mkRow (sortObs obs) lag (lag + j))).length := List.length_filter_le _ _
      _ = obs.length - lag := by simp

theorem prep_length_eq (obs : List Obs) (lag : ℕ)
    (hsec : ∀ i ∈ List.range obs.length, lag ≤ i → lagSecs (sortObs obs) lag i ≠ 0) :
    (prep_hurricane_data obs lag).length = obs.length - lag := by
  by_cases h : obs.length ≤ lag
  · rw [prep_eq_nil_of_le obs lag h]
    simp
    omega
  · rw [prep_split obs lag (by omega)]
    have hall : ((List.range (obs.length - lag)).map
        (fun j => mkRow (sortObs obs) lag (lag + j))).filter (fun r => !hasNan r) =
        (List.range (obs.length - lag)).map
          (fun j => mkRow (sortObs obs) lag (lag + j)) := by
      apply List.filter_eq_self.mpr
      intro r hr
      rcases List.mem_map.mp hr with ⟨j, hj, rfl⟩
      have hjlt : j < obs.length - lag := List.mem_range.mp hj
      have hmem : lag + j ∈ List.range obs.length := List.mem_range.mpr (by omega)
      have := hasNan_mkRow_of_ge (sortObs obs) lag (lag + j) (by omega)
        (hsec (lag + j) hmem (by omega))
      simp [this]
    rw [hall]
    simp

/-! ## Concrete scenario inputs -/

/-- The spec's end-to-end scenario: 6 observations spaced exactly 6 hours
(21600 s) apart with winds 30,35,40,45,50,55 knots. -/
def c1_obs : List Obs :=
  [ ⟨0,      30, 10, 40, 1005⟩,
    ⟨21600,  35, 11, 42, 1004⟩,
    ⟨43200,  40, 12, 44, 1003⟩,
    ⟨64800,  45, 13, 46, 1002⟩,
    ⟨86400,  50, 14, 48, 1001⟩,
    ⟨108000, 55, 15, 50, 1000⟩ ]

theorem c1_obs_sorted : sortObs c1_obs = c1_obs := by
  apply List.Sorted.insertionSort_eq
  decide

theorem range_six : List.range 6 = [0, 1, 2, 3, 4, 5] := by decide

theorem c1_eval : prep_hurricane_data c1_obs 5 =
    [{ time := 108000, wind := 55, lat := 15, lon := 50, pressure := 1000,
       max_wind := 55, delta_wind := PVal.num 25, min_pressure := 1000,
       zonal_speed := PVal.num (5/6), meridonal_speed := PVal.num (5/3),
       year := 1970, month := 1, day := 2, hour := 6 }] := by
  show ((List.range (sortObs c1_obs).length).map (mkRow (sortObs c1_obs) 5)).filter
      (fun r => !hasNan r) = _
  rw [c1_obs_sorted]
  show ((List.range 6).map (mkRow c1_obs 5)).filter (fun r => !hasNan r) = _
  rw [range_six]
  simp only [List.map, List.filter]
  norm_num [mkRow, hasNan, PVal.isNan, pdiv, lagSecs, prefixMax, prefixMin,
    listMaxD, listMinD, c1_obs, List.getD, yearOf, monthOf, dayOf, hourOf, civilFromDays]

/-- Observations for the zonal/meridional-speed scenario: 6-hour spacing,
latitudes 10..15, longitudes 40,42,..,50.  The total elapsed time over the
five-interval lag window is 30 hours. -/
def c3_obs : List Obs :=
  [ ⟨0,      30, 10, 40, 1005⟩,
    ⟨21600,  30, 11, 42, 1004⟩,
    ⟨43200,  30, 12, 44, 1003⟩,
    ⟨64800,  30, 13, 46, 1002⟩,
    ⟨86400,  30, 14, 48, 1001⟩,
    ⟨108000, 30, 15, 50, 1000⟩ ]

theorem c3_obs_sorted : sortObs c3_obs = c3_obs := by
  apply List.Sorted.insertionSort_eq
  decide

theorem c3_eval : prep_hurricane_data c3_obs 5 =
    [{ time := 108000, wind := 30, lat := 15, lon := 50, pressure := 1000,
       max_wind := 30, delta_wind := PVal.num 0, min_pressure := 1000,
       zonal_speed := PVal.num (5/6), meridonal_speed := PVal.num (5/3),
       year := 1970, month := 1, day := 2, hour := 6 }] := by
  show ((List.range (sortObs c3_obs).length).map (mkRow (sortObs c3_obs) 5)).filter
      (fun r => !hasNan r) = _
  rw [c3_obs_sorted]
  show ((List.range 6).map (mkRow c3_obs 5)).filter (fun r => !hasNan r) = _
  rw [range_six]
  simp only [List.map, List.filter]
  norm_num [mkRow, hasNan, PVal.isNan, pdiv, lagSecs, prefixMax, prefixMin,
    listMaxD, listMinD, c3_obs, List.getD, yearOf, monthOf, dayOf, hourOf, civilFromDays]

/-- 6 observations sharing one timestamp and one wind value: the lag-5 row
computes `delta_wind = 0/0 = NaN` and is dropped, so the output has 0 rows
although `n - lag = 1`. -/
def c2_cex_obs : List Obs :=
  [ ⟨0, 30, 10, 40, 1005⟩,
    ⟨0, 30, 11, 42, 1004⟩,
    ⟨0, 30, 12, 44, 1003⟩,
    ⟨0, 30, 13, 46, 1002⟩,
    ⟨0, 30, 14, 48, 1001⟩,
    ⟨0, 30, 15, 50, 1000⟩ ]

theorem c2_cex_obs_sorted : sortObs c2_cex_obs = c2_cex_obs := by
  apply List.Sorted.insertionSort_eq
  decide

theorem c2_cex_eval : prep_hurricane_data c2_cex_obs 5 = [] := by
  show ((List.range (sortObs c2_cex_obs).length).map (mkRow (sortObs c2_cex_obs) 5)).filter
      (fun r => !hasNan r) = _
  rw [c2_cex_obs_sorted]
  show ((List.range 6).map (mkRow c2_cex_obs 5)).filter (fun r => !hasNan r) = _
  rw [range_six]
  simp only [List.map, List.filter]
  norm_num [mkRow, hasNan, PVal.isNan, pdiv, lagSecs, prefixMax, prefixMin,
    listMaxD, listMinD, c2_cex_obs, List.getD]

/-- A storm history of only 3 observations. -/
def c2_short_obs : List Obs :=
  [ ⟨0,     30, 10, 40, 1005⟩,
    ⟨21600, 35, 11, 42, 1004⟩,
    ⟨43200, 40, 12, 44, 1003⟩ ]

/-! ## Claims about the feature deriver -/

/-- C1: at the spec's end-to-end scenario (6 six-hour-spaced observations
with winds 30,35,40,45,50,55 knots, `lag = 5`) `prep_hurricane_data` does
return exactly 1 row with `max_wind = 55`, but its `delta_wind` is 25, not
the `(55 - 30)/5 = 5` demanded by the spec formula: the code divides by
`.dt.seconds / 21600`, and `.dt.seconds` keeps only the seconds component
of the 30-hour lag gap (21600 s = 6 h), so the normalizer is 1 instead of
5. -/
theorem C1_delta_wind_divergence :
    (prep_hurricane_data c1_obs 5).length = 1
    ∧ ((prep_hurricane_data c1_obs 5).headD default).max_wind = 55
    ∧ ((prep_hurricane_data c1_obs 5).headD default).delta_wind = PVal.num 25
    ∧ PVal.num 25 ≠ PVal.num ((55 - 30) / 5) := by
  rw [c1_eval]
  refine ⟨rfl, rfl, rfl, ?_⟩
  have : ((55 - 30) / 5 : ℚ) = 5 := by norm_num
  rw [this]
  intro hcontra
  have : (25 : ℚ) = 5 := by injection hcontra
  norm_num at this

/-- C3: at `c3_obs` (6-hour spacing, latitudes 10..15, longitudes
40,42,..,50, `lag = 5`) the code computes `zonal_speed = (15-10)/6 = 5/6`
and `meridonal_speed = (50-40)/6 = 5/3`: it divides by
`.dt.seconds / 3600`, the seconds component of the 30-hour gap (6 hours),
not by the total elapsed 30 hours as the claim states (which would give
`5/30` and `10/30`). -/
theorem C3_speed_denominator_divergence :
    ((prep_hurricane_data c3_obs 5).headD default).zonal_speed = PVal.num (5/6)
    ∧ ((prep_hurricane_data c3_obs 5).headD default).meridonal_speed = PVal.num (5/3)
    ∧ (5/6 : ℚ) ≠ (15 - 10) / 30
    ∧ (5/3 : ℚ) ≠ (50 - 40) / 30 := by
  rw [c3_eval]
  refine ⟨rfl, rfl, by norm_num, by norm_num⟩

/-- C2 (counterexample): `c2_cex_obs` has 6 > 5 = lag observations, yet
`prep_hurricane_data` returns 0 rows, not `6 - 5 = 1`: all observations
share one timestamp and one wind value, so the lag row's `delta_wind` is
`0/0 = NaN` and `dropna` removes it. -/
theorem C2_exact_count_counterexample :
    c2_cex_obs.length = 6
    ∧ 5 < c2_cex_obs.length
    ∧ (prep_hurricane_data c2_cex_obs 5).length ≠ c2_cex_obs.length - 5 := by
  refine ⟨rfl, by decide, ?_⟩
  rw [c2_cex_eval]
  decide

/-- C2 (amended): for every observation sequence, (i) if `n ≤ lag` the
feature table is empty; (ii) no emitted row has a missing (NaN) derived
field; (iii) the table has at most `n - lag` rows; and (iv) it has exactly
`n - lag` rows provided every in-range lag gap of the time-sorted sequence
has a nonzero seconds component (`.dt.seconds ≠ 0`) — without that proviso
a `0/0 = NaN` can arise in a derived quotient and the row is dropped, as
in `C2_exact_count_counterexample`. -/
theorem C2_feature_table_shape (obs : List Obs) (lag : ℕ) :
    (obs.length ≤ lag → prep_hurricane_data obs lag = [])
    ∧ (∀ r ∈ prep_hurricane_data obs lag, hasNan r = false)
    ∧ (prep_hurricane_data obs lag).length ≤ obs.length - lag
    ∧ ((∀ i ∈ List.range obs.length, lag ≤ i → lagSecs (sortObs obs) lag i ≠ 0) →
        (prep_hurricane_data obs lag).length = obs.length - lag) :=
  ⟨prep_eq_nil_of_le obs lag, prep_mem_not_nan obs lag, prep_length_le obs lag,
    prep_length_eq obs lag⟩

/-- Witness for `C2_feature_table_shape`: a 3-observation storm yields an
empty table, and the 6-observation 6-hour-spaced storm (whose lag gaps
have seconds component 21600 ≠ 0) yields exactly `6 - 5 = 1` row. -/
theorem C2_feature_table_shape_witness :
    prep_hurricane_data c2_short_obs 5 = []
    ∧ (prep_hurricane_data c1_obs 5).length = c1_obs.length - 5 :=
  ⟨(C2_feature_table_shape c2_short_obs 5).1 (by decide),
   (C2_feature_table_shape c1_obs 5).2.2.2 (by decide)⟩

/-! ## Claims about the descaler -/

theorem set_replicate_eq (n k : ℕ) (v : ℚ) (h : k < n) :
    (List.replicate n (0 : ℚ)).set k v =
      List.replicate k (0 : ℚ) ++ v :: List.replicate (n - k - 1) (0 : ℚ) := by
  induction n generalizing k with
  | zero => omega
  | succ m ih =>
    cases k with
    | zero => simp [List.replicate_succ]
    | succ k' =>
      rw [Nat.succ_sub_succ]
      show (0 : ℚ) :: (List.replicate m (0 : ℚ)).set k' v
          = (0 : ℚ) :: (List.replicate k' (0 : ℚ) ++ v :: List.replicate (m - k' - 1) (0 : ℚ))
      exact congrArg _ (ih k' (by omega))

/-- C4: for `0 ≤ feature_index < N`, `_generate_sparse_feature_vector`
returns a vector of length exactly `N` with the value at position
`feature_index` and `0` everywhere else (the explicit
`zeros ++ value :: zeros` shape), and the descaling step reads back
exactly position `feature_index` of row 0 of the inverse-transformed
batch. -/
theorem C4_sparse_vector_shape (n : ℕ) (i : ℤ) (v : ℚ) (h0 : 0 ≤ i) (h1 : i < (n : ℤ)) :
    _generate_sparse_feature_vector n i v
      = some (List.replicate i.toNat (0 : ℚ) ++ v :: List.replicate (n - i.toNat - 1) (0 : ℚ))
    ∧ (List.replicate i.toNat (0 : ℚ) ++ v :: List.replicate (n - i.toNat - 1) (0 : ℚ)).length
        = n
    ∧ ∀ inverse_transform : List (List ℚ) → List (List ℚ),
        descale inverse_transform n i v =
          ((inverse_transform [List.replicate i.toNat (0 : ℚ) ++ v ::
              List.replicate (n - i.toNat - 1) (0 : ℚ)]).get? 0).bind
            fun row => row.get? i.toNat := by
  have hj : ¬ i < 0 := not_lt.mpr h0
  have hlt : i.toNat < n := by omega
  have hgen : _generate_sparse_feature_vector n i v
      = some ((List.replicate n (0 : ℚ)).set i.toNat v) := by
    simp only [_generate_sparse_feature_vector, if_neg hj]
    rw [if_pos ⟨h0, h1⟩]
  rw [set_replicate_eq n i.toNat v hlt] at hgen
  refine ⟨hgen, ?_, ?_⟩
  · simp
    omega
  · intro inverse_transform
    unfold descale
    rw [hgen]
    rfl

/-- Witness for `C4_sparse_vector_shape` at `N = 11`, `feature_index = 2`,
value 42. -/
theorem C4_sparse_vector_shape_witness :
    _generate_sparse_feature_vector 11 2 (42 : ℚ)
      = some (List.replicate 2 (0 : ℚ) ++ (42 : ℚ) :: List.replicate 8 (0 : ℚ)) :=
  (C4_sparse_vector_shape 11 2 42 (by decide) (by decide)).1

/-- C7 (counterexample): at `N = 11`, `feature_index = -1`, Python's
negative indexing silently writes the last position and returns a vector —
no error is raised, contradicting the claim that every
`feature_index < 0` fails. -/
theorem C7_negative_index_counterexample :
    _generate_sparse_feature_vector 11 (-1) (42 : ℚ)
      = some [0, 0, 0, 0, 0, 0, 0, 0, 0, 0, 42] := by
  decide

/-- C7 (amended): `_generate_sparse_feature_vector` fails (IndexError)
exactly for `feature_index ≥ N` or `feature_index < -N`; for
`-N ≤ feature_index < 0` Python's negative indexing silently writes
position `N + feature_index` and produces a result. -/
theorem C7_index_error_behavior (n : ℕ) (i : ℤ) (v : ℚ) :
    (((n : ℤ) ≤ i ∨ i < -(n : ℤ)) → _generate_sparse_feature_vector n i v = none)
    ∧ (-(n : ℤ) ≤ i → i < 0 →
        _generate_sparse_feature_vector n i v
          = some ((List.replicate n (0 : ℚ)).set (i + n).toNat v)) := by
  constructor
  · intro h
    simp only [_generate_sparse_feature_vector]
    by_cases hneg : i < 0
    · rw [if_pos hneg, if_neg (by omega : ¬ (0 ≤ i + (n : ℤ) ∧ i + (n : ℤ) < (n : ℤ)))]
    · rw [if_neg hneg, if_neg (by omega : ¬ ((0 : ℤ) ≤ i ∧ i < (n : ℤ)))]
  · intro hge hlt
    simp only [_generate_sparse_feature_vector]
    rw [if_pos hlt, if_pos ⟨by omega, by omega⟩]

/-- Witness for `C7_index_error_behavior`: index 20 against an
11-dimensional scaler fails; index -3 silently writes position 8. -/
theorem C7_index_error_behavior_witness :
    _generate_sparse_feature_vector 11 20 (42 : ℚ) = none
    ∧ _generate_sparse_feature_vector 11 (-3) (42 : ℚ)
      = some ((List.replicate 11 (0 : ℚ)).set ((-3 : ℤ) + 11).toNat 42) :=
  ⟨(C7_index_error_behavior 11 20 42).1 (by decide),
   (C7_index_error_behavior 11 (-3) 42).2 (by decide) (by decide)⟩

/-- C5: in universal mode the per-horizon model output `result[day]` is
read in the fixed order wind = position 0, latitude = position 1,
longitude = position 2, and each value is descaled through an
11-dimensional sparse vector placing wind at scaler index 2, latitude at
scaler index 0 and longitude at scaler index 1, reading back the same
index of row 0 after `inverse_transform`; the loop applies this to
`result[day]` for `day in range(4)`. -/
theorem C5_universal_output_order (inverse_transform : List (List ℚ) → List (List ℚ))
    (w la lo : ℚ) :
    universal_descale_day inverse_transform [w, la, lo] =
      ( ((inverse_transform [[0, 0, w, 0, 0, 0, 0, 0, 0, 0, 0]]).get? 0).bind
          (fun row => row.get? 2),
        ((inverse_transform [[la, 0, 0, 0, 0, 0, 0, 0, 0, 0, 0]]).get? 0).bind
          (fun row => row.get? 0),
        ((inverse_transform [[0, lo, 0, 0, 0, 0, 0, 0, 0, 0, 0]]).get? 0).bind
          (fun row => row.get? 1) )
    ∧ ∀ r0 r1 r2 r3 : List ℚ,
        universal_descale inverse_transform [r0, r1, r2, r3] =
          [universal_descale_day inverse_transform r0,
           universal_descale_day inverse_transform r1,
           universal_descale_day inverse_transform r2,
           universal_descale_day inverse_transform r3] := by
  constructor
  · rfl
  · intro r0 r1 r2 r3
    rfl

/-! ## Claims about the orchestrator -/

/-- C6: in the per-storm loop, every storm whose entry list has at most 5
observations is skipped (output `none`, and `predict` — whose value only
occurs under `some` — is never invoked for it), while the loop still emits
one output per storm and applies `predict` for every storm with more than
5 entries. -/
theorem C6_short_storms_skipped {α : Type} (predict : List FeatureRow → ℕ → α)
    (storms : List Storm) :
    (run_live_inference_storms predict storms).length = storms.length
    ∧ (∀ (k : ℕ) (storm : Storm), storms[k]? = some storm → storm.entries.length ≤ 5 →
        (run_live_inference_storms predict storms)[k]? = some none)
    ∧ (∀ (k : ℕ) (storm : Storm), storms[k]? = some storm → 5 < storm.entries.length →
        (run_live_inference_storms predict storms)[k]? =
          some (some (predict (prep_hurricane_data storm.entries 5) 5))) := by
  refine ⟨by simp [run_live_inference_storms], ?_, ?_⟩
  · intro k storm hk hle
    simp [run_live_inference_storms, List.getElem?_map, hk, if_pos hle]
  · intro k storm hk hgt
    simp [run_live_inference_storms, List.getElem?_map, hk,
      if_neg (Nat.not_le.mpr hgt)]

def c6_predict : List FeatureRow → ℕ → ℕ := fun df _ => df.length

def c6_storms : List Storm := [⟨c2_short_obs⟩, ⟨c1_obs⟩]

/-- Witness for `C6_short_storms_skipped`: a 3-observation storm at
position 0 is skipped, and the loop's output still covers both storms. -/
theorem C6_short_storms_skipped_witness :
    (run_live_inference_storms c6_predict c6_storms).length = 2
    ∧ (run_live_inference_storms c6_predict c6_storms)[0]? = some none :=
  ⟨(C6_short_storms_skipped c6_predict c6_storms).1,
   (C6_short_storms_skipped c6_predict c6_storms).2.1 0 ⟨c2_short_obs⟩ rfl (by decide)⟩

/-- A 12-anchor storm entry-time list (6-hour spacing). -/
def c8_times : List ℤ :=
  [0, 21600, 43200, 64800, 86400, 108000, 129600, 151200, 172800, 194400, 216000, 237600]

def c8_preds : ℤ → List ℚ × List ℚ × List ℚ := fun _ => ([], [], [])

def c8_truth : ℤ → Option TruthEntry := fun _ => none

/-- C8 (counterexample): for a storm with 12 observations the batch loop
builds one table per anchor in `[*hurricane.entries][len(output_times):]`,
i.e. `12 - 5 = 7` tables — not `n - lag - (horizon lookback)
= 12 - 5 - 5 = 2` as the claim's count formula states. -/
theorem C8_anchor_count_counterexample :
    c8_times.length = 12
    ∧ (batch_tables c8_times c8_preds c8_preds c8_truth).length = 7
    ∧ (7 : ℕ) ≠ 12 - 5 - 5 := by
  refine ⟨rfl, rfl, by decide⟩

theorem create_table_length (universal singular : Prediction)
    (truth : ℤ → Option TruthEntry) (deltas : List ℕ) :
    (create_table universal singular truth deltas).length = universal.times.length := by
  simp [create_table]

/-- C8 (amended): batch mode produces exactly one table per eligible
anchor, the anchors being all entry timestamps except the first
`len(output_times) = 5`; hence the table count is `n - 5` — independent of
the lag — and each table has one row per forecast horizon. -/
theorem C8_one_table_per_anchor (storm_entry_times : List ℤ)
    (pu ps : ℤ → List ℚ × List ℚ × List ℚ) (truth : ℤ → Option TruthEntry) :
    (batch_tables storm_entry_times pu ps truth).length
        = storm_entry_times.length - output_times.length
    ∧ (batch_tables storm_entry_times pu ps truth).map Prod.fst
        = storm_entry_times.drop output_times.length
    ∧ ∀ p ∈ batch_tables storm_entry_times pu ps truth,
        p.2.length = output_times.length := by
  refine ⟨?_, ?_, ?_⟩
  · simp [batch_tables]
  · simp only [batch_tables, List.map_map]
    have hid : (Prod.fst ∘ fun timestamp : ℤ =>
        (timestamp, create_table (anchor_prediction pu timestamp)
          (anchor_prediction ps timestamp) truth output_times)) = id := rfl
    rw [hid, List.map_id]
  · intro p hp
    rcases List.mem_map.mp hp with ⟨t, _, rfl⟩
    rw [create_table_length]
    show (output_times.map fun hour : ℕ => t + 3600 * (hour : ℤ)).length = output_times.length
    rw [List.length_map]

/-- Witness for `C8_one_table_per_anchor`: the first of the 7 tables for
the 12-observation storm has one row per horizon. -/
theorem C8_one_table_per_anchor_witness :
    ((batch_tables c8_times c8_preds c8_preds c8_truth).headD default).2.length = 5 :=
  (C8_one_table_per_anchor c8_times c8_preds c8_preds c8_truth).2.2 _ (by decide)

/-- C9 (modelled from the spec, see `ModelHandle.predict`): `predict` is
deterministic and side-effect free — a second call on the state returned
by a first call with the same feature window yields the identical output,
and the model handle (weights and inference state) is returned unchanged.
-/
theorem C9_predict_pure (forward : List ℚ → List FeatureRow → List (List ℚ))
    (m : ModelHandle) (feature_window : List FeatureRow) :
    (ModelHandle.predict forward m feature_window).1
        = (ModelHandle.predict forward
            (ModelHandle.predict forward m feature_window).2 feature_window).1
    ∧ (ModelHandle.predict forward m feature_window).2 = m :=
  ⟨rfl, rfl⟩

/-! ## Claims about the singular descaling branch -/

theorem singular_day_wind_not_name_error
    (inverse_transform : List (List ℚ) → List (List ℚ)) (result : List ℚ) (day : ℕ)
    (st : Option (List (List ℚ))) :
    singular_day "wind" inverse_transform result day st ≠ Except.error nameErrorMsg := by
  unfold singular_day
  rw [if_pos rfl]
  cases h1 : result.get? day with
  | none =>
    simp only [h1]
    intro h
    injection h with he
    exact absurd he (by decide)
  | some v =>
    simp only [h1]
    cases h2 : _generate_sparse_feature_vector 11 2 v with
    | none =>
      simp only [h2]
      intro h
      injection h with he
      exact absurd he (by decide)
    | some vec =>
      simp only [h2]
      cases h3 : ((inverse_transform ([] ++ [vec])).get? 0).bind (fun row => row.get? 2) with
      | none =>
        simp only [h3]
        intro h
        injection h with he
        exact absurd he (by decide)
      | some x =>
        simp only [h3]
        intro h
        exact Except.noConfusion h

theorem singular_day_long_not_name_error
    (inverse_transform : List (List ℚ) → List (List ℚ)) (result : List ℚ) (day : ℕ)
    (st : Option (List (List ℚ))) :
    singular_day "long" inverse_transform result day st ≠ Except.error nameErrorMsg := by
  unfold singular_day
  rw [if_neg (by decide : ¬ ("long" : String) = "wind"),
    if_neg (by decide : ¬ ("long" : String) = "lat")]
  cases h1 : result.get? day with
  | none =>
    simp only [h1]
    intro h
    injection h with he
    exact absurd he (by decide)
  | some v =>
    simp only [h1]
    cases h2 : _generate_sparse_feature_vector 11 1 v with
    | none =>
      simp only [h2]
      intro h
      injection h with he
      exact absurd he (by decide)
    | some vec =>
      simp only [h2]
      cases h3 : ((inverse_transform ([] ++ [vec])).get? 0).bind (fun row => row.get? 1) with
      | none =>
        simp only [h3]
        intro h
        injection h with he
        exact absurd he (by decide)
      | some x =>
        simp only [h3]
        intro h
        exact Except.noConfusion h

theorem run_singular_not_name_error (model_type : String)
    (hday : ∀ inverse_transform result day st,
      singular_day model_type inverse_transform result day st ≠ Except.error nameErrorMsg)
    (inverse_transform : List (List ℚ) → List (List ℚ)) (result : List ℚ) :
    run_singular_descale model_type inverse_transform result ≠ Except.error nameErrorMsg := by
  unfold run_singular_descale
  cases h0 : singular_day model_type inverse_transform result 0 none with
  | error e =>
    simp only [h0]
    intro h
    injection h with he
    exact hday inverse_transform result 0 none (by rw [h0, he])
  | ok p0 =>
    obtain ⟨x0, st0⟩ := p0
    simp only [h0]
    cases h1 : singular_day model_type inverse_transform result 1 st0 with
    | error e =>
      simp only [h1]
      intro h
      injection h with he
      exact hday inverse_transform result 1 st0 (by rw [h1, he])
    | ok p1 =>
      obtain ⟨x1, st1⟩ := p1
      simp only [h1]
      cases h2 : singular_day model_type inverse_transform result 2 st1 with
      | error e =>
        simp only [h2]
        intro h
        injection h with he
        exact hday inverse_transform result 2 st1 (by rw [h2, he])
      | ok p2 =>
        obtain ⟨x2, st2⟩ := p2
        simp only [h2]
        intro h
        exact Except.noConfusion h

/-- C10: with a singular model of type "lat", the first loop iteration
loads the name `lat_result` before any assignment to it, so the run
raises a NameError (for every scaler and every model output) — unlike the
"wind" and longitude branches, which initialize their result list first
and can never raise that error. -/
theorem C10_lat_branch_name_error
    (inverse_transform : List (List ℚ) → List (List ℚ)) (result : List ℚ) :
    run_singular_descale "lat" inverse_transform result = Except.error nameErrorMsg
    ∧ run_singular_descale "wind" inverse_transform result ≠ Except.error nameErrorMsg
    ∧ run_singular_descale "long" inverse_transform result ≠ Except.error nameErrorMsg := by
  refine ⟨rfl, ?_, ?_⟩
  · exact run_singular_not_name_error "wind" singular_day_wind_not_name_error
      inverse_transform result
  · exact run_singular_not_name_error "long" singular_day_long_not_name_error
      inverse_transform result
